import Mathlib

/-!
Verification of the cinestream client-side query/pagination state machine.

The definitions below are a shallow embedding of the repository's source:

* src/src/hooks/useDebounce.js      — the debounce primitive (timer arithmetic);
* src/src/api/api.js                — the remote API layer (key guard, URL/query
  construction for the trending and search endpoints);
* src/src/components/TMDBImage.jsx  — image URL derivation from the resolved
  configuration (default src and responsive srcSet);
* src/src/pages/Home.jsx            — the query/pagination controller: debounced
  term, page cursor, result accumulator, loading flag, scroll advance.

React semantics embedded for Home.jsx (idealized single-threaded event
processing: each external event — a settled debounce emission, a scroll event,
a network response — is processed to quiescence before the next one arrives):

* a state update made inside an effect does not change the values captured by
  the closures of the commit that is currently running its effects; the
  re-render it schedules happens only after every effect of that commit ran;
* therefore, when the debounced term changes while page is P ≠ 1, the page-reset
  effect (Home.jsx lines 22-24) runs setPage(1), and the fetch effect
  (lines 27-50) still runs in that same commit with the old page P, dispatching
  a request tagged (newTerm, P); the re-render with page 1 then runs the fetch
  effect again, dispatching (newTerm, 1);
* the fetch effect has no cleanup, abort or staleness tag: a response always
  applies (lines 37-41) using the page value captured at dispatch time;
* the scroll-listener effect (lines 66-73) re-runs on every change of loading
  and invokes handleScroll once immediately (line 67); handleScroll (lines
  53-64) increments page only when the proximity test passes and loading is
  false in its closure.

Result items are opaque to the controller (passed verbatim from the response),
so they are modelled by a bare identifier.
-/

namespace CineStream

/-- One media record, opaque to the controller (Home.jsx never reads its
fields; they only matter to presentation components, which are out of scope). -/
structure Movie where
  id : Nat
deriving DecidableEq, Repr

/-- The tag of a dispatched fetch: the debouncedSearch and page values captured
by the fetch effect's closure at dispatch time (Home.jsx lines 27-50). -/
structure Request where
  term : String
  page : Nat
deriving DecidableEq, Repr

/-- The Home controller state: the four useState cells of Home.jsx plus the
list of dispatched-but-unsettled requests (network in flight, in dispatch
order) and a count of console.error reports (Home.jsx line 43). -/
structure HomeState where
  debouncedSearch : String
  page : Nat
  loading : Bool
  movies : List Movie
  inflight : List Request
  errors : Nat
deriving DecidableEq, Repr

/-- Outcome of a settled fetch: success carries the data.results field of the
response (none models a malformed response with no results array); failure is
a transport error or non-success status rethrown by api.js. -/
inductive FetchOutcome where
  | success (batch : Option (List Movie))
  | failure
deriving DecidableEq, Repr

/-- Result merging, Home.jsx lines 37-41: on a page-1 response, movies is
replaced by data.results with the JS default (data.results or empty); on a
later page the batch is appended to the previous list. The page used is the
one captured by the closure of the request being settled. -/
def applyBatch (issuedPage : Nat) (batch : Option (List Movie))
    (movies : List Movie) : List Movie :=
  if issuedPage = 1 then batch.getD [] else movies ++ batch.getD []

/-- The debounced term settles to a new value (useDebounce emits). Home.jsx:
the page-reset effect (lines 22-24) and the fetch effect (lines 27-50) both
run in the commit that rendered the new term. When the prior page was 1,
setPage(1) is a no-op (React bails out on identical state) and a single
request (newTerm, 1) is dispatched. When the prior page was P ≠ 1, the fetch
effect first runs in the same commit as the reset with the stale page P,
dispatching (newTerm, P); the re-render with page 1 runs it again, dispatching
(newTerm, 1). A settle to the identical term re-renders nothing. -/
def termSettled (s : HomeState) (newTerm : String) : HomeState :=
  if newTerm = s.debouncedSearch then s
  else if s.page = 1 then
    { s with debouncedSearch := newTerm, loading := true,
             inflight := s.inflight ++ [⟨newTerm, 1⟩] }
  else
    { s with debouncedSearch := newTerm, page := 1, loading := true,
             inflight := s.inflight ++ [⟨newTerm, s.page⟩, ⟨newTerm, 1⟩] }

/-- An external scroll event delivered to handleScroll (Home.jsx lines 53-64).
nearBottom is the proximity test of lines 55-58 (within 100px of the bottom),
provided by the host environment. When it passes and loading is false, page is
incremented, which makes the fetch effect dispatch (term, page+1) and set
loading; otherwise nothing happens (and nothing is queued). -/
def scrollSignal (s : HomeState) (nearBottom : Bool) : HomeState :=
  if nearBottom && !s.loading then
    { s with page := s.page + 1, loading := true,
             inflight := s.inflight ++ [⟨s.debouncedSearch, s.page + 1⟩] }
  else s

/-- Iterated proximity signals (all with the proximity test passing). -/
def scrollSignals (s : HomeState) : Nat → HomeState
  | 0 => s
  | n + 1 => scrollSignal (scrollSignals s n) true

/-- A dispatched request settles. Home.jsx lines 31-46: on success the batch is
merged using the closure's page (applyBatch); on failure console.error is
called and movies is untouched; in both cases the finally clause clears
loading. If loading was true before the settle, the loading change re-runs the
scroll-listener effect (lines 66-73), which invokes handleScroll immediately
(line 67); with the proximity test passing at that moment, page is incremented
and the fetch effect dispatches (term, page+1), setting loading again. -/
def fetchSettled (s : HomeState) (r : Request) (out : FetchOutcome)
    (nearBottom : Bool) : HomeState :=
  let movies' := match out with
    | .success batch => applyBatch r.page batch s.movies
    | .failure => s.movies
  let errors' := match out with
    | .success _ => s.errors
    | .failure => s.errors + 1
  let s' : HomeState :=
    { s with movies := movies', errors := errors',
             loading := false, inflight := s.inflight.erase r }
  if s.loading && nearBottom then
    { s' with page := s'.page + 1, loading := true,
              inflight := s'.inflight ++ [⟨s'.debouncedSearch, s'.page + 1⟩] }
  else s'

/-- The state right after mount (Home.jsx initial render: empty term, page 1,
not loading, no movies). The mount commit runs the fetch effect (dispatching
the trending page-1 request and setting loading) and the scroll effect, whose
immediate handleScroll call still sees loading = false in its closure: when
the empty page is shorter than the viewport, page advances to 2 and a second
request is dispatched by the next commit. -/
def initState (nearBottomAtMount : Bool) : HomeState :=
  let s0 : HomeState :=
    { debouncedSearch := "", page := 1, loading := true,
      movies := [], inflight := [⟨"", 1⟩], errors := 0 }
  if nearBottomAtMount then
    { s0 with page := 2, inflight := s0.inflight ++ [⟨"", 2⟩] }
  else s0

/-- The remote call chosen by the fetch effect, Home.jsx lines 33-35:
the JS conditional on debouncedSearch uses string truthiness, so the empty
string routes to trending and every non-empty string (trimmed or not) routes
to search with that exact string and the current page. -/
inductive ApiCall where
  | search (query : String) (page : Nat)
  | trending (page : Nat)
deriving DecidableEq, Repr

/-- Call routing from Home.jsx lines 33-35. -/
def homeFetchCall (debouncedSearch : String) (page : Nat) : ApiCall :=
  if debouncedSearch = "" then .trending page else .search debouncedSearch page

/-! ### Remote API layer, src/src/api/api.js -/

/-- Base URL constant, api.js line 1. -/
def BASE_URL : String := "https://api.themoviedb.org/3"

/-- The request api.js would issue: the URL of line 14 without its query
string, plus the ordered key/value pairs handed to URLSearchParams (the
serialization and percent-encoding of URLSearchParams are abstracted to the
ordered pair list itself). -/
structure TMDBRequest where
  url : String
  params : List (String × String)
deriving DecidableEq, Repr

/-- Core fetch helper, api.js lines 4-14 (up to the point the request is
issued). The API key is the value of an environment variable: none models it
being undefined, and the JS truthiness test of line 5 also treats the empty
string as missing. When the key is missing an error is thrown before the URL
is constructed or any request issued; otherwise URLSearchParams receives the
api_key pair first (line 10) followed by the caller's params (line 11). -/
def fetchFromTMDB (apiKey : Option String) (endpoint : String)
    (params : List (String × String)) : Except String TMDBRequest :=
  match apiKey with
  | none => .error "key is missing"
  | some k =>
    if k = "" then .error "key is missing"
    else .ok ⟨BASE_URL ++ endpoint, ("api_key", k) :: params⟩

/-- api.js lines 32-34. -/
def getTrendingMovies (apiKey : Option String) (page : Nat) :
    Except String TMDBRequest :=
  fetchFromTMDB apiKey "/trending/movie/week" [("page", Nat.repr page)]

/-- api.js lines 36-38. -/
def searchMovies (apiKey : Option String) (query : String) (page : Nat) :
    Except String TMDBRequest :=
  fetchFromTMDB apiKey "/search/movie" [("query", query), ("page", Nat.repr page)]

/-! ### Debouncer, src/src/hooks/useDebounce.js

Each input (time t, value v) re-runs the effect: the cleanup of the previous
run clears the previous timer, and a new timer is scheduled to emit v at
t + delay (lines 8-12). The cleanup runs at the next input's effect run, or at
teardown of the owning component; it cancels the pending timer when it runs
strictly before the timer's fire time. -/

/-- The time at which the timer scheduled by the current input gets cleared:
the arrival of the next input, or — for the last input — the teardown time
(none when the component stays mounted). -/
def cancelTime (tear : Option Nat) (rest : List (Nat × String)) : Option Nat :=
  match rest with
  | (t2, _) :: _ => some t2
  | [] => tear

/-- The emissions (time, value) produced by useDebounce for a timestamped
input sequence: the timer of input (t, v) fires at t + d unless cleared
strictly before that (useDebounce.js lines 8-12). -/
def emissions (d : Nat) (tear : Option Nat) :
    List (Nat × String) → List (Nat × String)
  | [] => []
  | (t, v) :: rest =>
    let cancelled : Bool :=
      match cancelTime tear rest with
      | some c => decide (c < t + d)
      | none => false
    (if cancelled then [] else [(t + d, v)]) ++ emissions d tear rest

/-- Consecutive inputs are in strictly increasing time order and arrive
strictly less than d apart. -/
def gapsLt (d : Nat) : List (Nat × String) → Bool
  | [] => true
  | [_] => true
  | (t1, _) :: (t2, v2) :: rest =>
    decide (t1 < t2) && decide (t2 < t1 + d) && gapsLt d ((t2, v2) :: rest)

/-! ### Image URL derivation, src/src/components/TMDBImage.jsx -/

/-- The images field of the configuration response consumed by TMDBImage.jsx
(secure_base_url, poster_sizes, backdrop_sizes). -/
structure ImagesConfig where
  secure_base_url : String
  poster_sizes : List String
  backdrop_sizes : List String
deriving DecidableEq, Repr

/-- Size-list selection, TMDBImage.jsx lines 36-37. -/
def sizesFor (cfg : ImagesConfig) (ty : String) : List String :=
  if ty = "backdrop" then cfg.backdrop_sizes else cfg.poster_sizes

/-- Default size token, TMDBImage.jsx line 40. -/
def defaultSize (ty : String) : String :=
  if ty = "backdrop" then "w780" else "w342"

/-- Default image source URL, TMDBImage.jsx line 43. -/
def tmdbSrc (cfg : ImagesConfig) (ty path : String) : String :=
  cfg.secure_base_url ++ defaultSize ty ++ path

/-- Remove the first occurrence of a character from a character list. -/
def removeFirstChar (c : Char) : List Char → List Char
  | [] => []
  | x :: xs => if x = c then xs else x :: removeFirstChar c xs

/-- The JS expression size.replace(&quot;w&quot;, &quot;&quot;) of TMDBImage.jsx line 53:
String.prototype.replace with a string pattern replaces only the first
occurrence, here of the single character w. -/
def jsReplaceW (s : String) : String :=
  String.mk (removeFirstChar 'w' s.data)

/-- One srcSet entry, TMDBImage.jsx line 53. -/
def srcSetEntry (baseUrl size path : String) : String :=
  baseUrl ++ size ++ path ++ " " ++ jsReplaceW size ++ "w"

/-- The srcSet attribute, TMDBImage.jsx lines 50-54: every size except the
original sentinel, in list order, rendered and joined with a comma. -/
def tmdbSrcSet (cfg : ImagesConfig) (ty path : String) : String :=
  String.intercalate ", "
    (((sizesFor cfg ty).filter (fun s => s != "original")).map
      (fun size => srcSetEntry cfg.secure_base_url size path))

/-- The rendered output of TMDBImage (lines 30-43): none when the path is
empty or the configuration has not resolved, otherwise the pair of the default
src and the srcSet attribute. -/
def tmdbImage (images : Option ImagesConfig) (path ty : String) :
    Option (String × String) :=
  match images with
  | none => none
  | some cfg =>
    if path = "" then none
    else some (tmdbSrc cfg ty path, tmdbSrcSet cfg ty path)

/-- Numeric pixel width parsed from a size token of the form w followed by
decimal digits: the spec's reading of the width a candidate is paired with. -/
def digitVal (c : Char) : Nat := c.toNat - 48

/-- Decimal value of a digit list, most significant first. -/
def natOfDigits (l : List Char) : Nat :=
  l.foldl (fun a c => 10 * a + digitVal c) 0

/-- Width parsed from a size token (the characters after the leading w). -/
def tokenWidth (tok : String) : Nat :=
  natOfDigits (tok.data.drop 1)

/-- Modelled from the spec's words for the responsive candidate set (spec
section 4.2, imageCandidates): every size in the relevant list except the
original sentinel, in list order, paired with the URL baseUrl + sizeToken +
path and the numeric pixel width parsed from the token. Compared below with
the srcSet string the component actually builds. -/
def specImageCandidates (cfg : ImagesConfig) (ty path : String) :
    List (String × Nat) :=
  ((sizesFor cfg ty).filter (fun s => s != "original")).map
    (fun tok => (cfg.secure_base_url ++ tok ++ path, tokenWidth tok))

/-- Modelled from the spec's words for term emptiness (spec section 4.3): a
term is empty when the string after trimming has length 0 — equivalently,
when every one of its characters is whitespace. -/
def specEmptyTerm (s : String) : Bool :=
  s.data.all Char.isWhitespace

/-! ## Theorems -/

/-- Helper: a scroll signal delivered while loading is a no-op. -/
theorem scrollSignal_noop (s : HomeState) (b : Bool) (h : s.loading = true) :
    scrollSignal s b = s := by
  simp [scrollSignal, h]

/-- Helper: iterated scroll signals while loading are a no-op. -/
theorem scrollSignals_noop (s : HomeState) (h : s.loading = true) :
    ∀ n, scrollSignals s n = s := by
  intro n
  induction n with
  | zero => rfl
  | succ k ih => simp [scrollSignals, ih, scrollSignal_noop s true h]

/-- The end state of the stale-response scenario of spec sections 5 and 8:
mount (viewport not near the bottom), trending page-1 response, term settles
to batman, its page-1 response arrives, a scroll advance dispatches batman
page 2, the term settles to superman while that request is in flight, the
superman page-1 response arrives and is applied, and finally the batman
page-2 response arrives late. -/
def staleDemoFinal : HomeState :=
  fetchSettled
    (fetchSettled
      (termSettled
        (scrollSignal
          (fetchSettled
            (termSettled
              (fetchSettled (initState false) ⟨"", 1⟩
                (.success (some [⟨1⟩, ⟨2⟩])) false)
              "batman")
            ⟨"batman", 1⟩ (.success (some [⟨3⟩, ⟨4⟩])) false)
          true)
        "superman")
      ⟨"superman", 1⟩ (.success (some [⟨5⟩, ⟨6⟩])) false)
    ⟨"batman", 2⟩ (.success (some [⟨7⟩, ⟨8⟩])) false

/-- Claim C1: the claim states that a late response for an old (term, page)
pair is discarded once the new term's page-1 fetch has been dispatched, so
that results equals exactly the new term's page-1 batch. The code has no
staleness guard (the fetch effect of Home.jsx lines 27-50 has no cleanup,
abort or tag check), so in the scenario of spec section 8 the late batman
page-2 batch is appended to superman's already-applied page-1 results: the
final list is the superman batch followed by the batman batch, not the
superman batch alone. -/
theorem claim_c1_stale_response_mutates_results :
    staleDemoFinal.debouncedSearch = "superman" ∧
    staleDemoFinal.movies = [⟨5⟩, ⟨6⟩, ⟨7⟩, ⟨8⟩] ∧
    staleDemoFinal.movies ≠ [⟨5⟩, ⟨6⟩] := by
  refine ⟨rfl, rfl, ?_⟩
  decide

/-- The controller idle at term batman, page 2 (after one scroll advance),
when the debounced term settles to superman. -/
def termChangeDemo : HomeState :=
  termSettled
    { debouncedSearch := "batman", page := 2, loading := false,
      movies := [⟨3⟩, ⟨4⟩], inflight := [], errors := 0 }
    "superman"

/-- Claim C2: the claim states that after a settled term change the next fetch
issued carries page 1 and that no fetch for the new term is issued with the
old page value. The page cursor is indeed reset to 1, but the fetch effect of
Home.jsx runs once in the same commit as the page-reset effect with the stale
page still in its closure: starting from page 2, the first request dispatched
after the term change is (superman, 2), before (superman, 1). -/
theorem claim_c2_term_change_dispatches_stale_page :
    termChangeDemo.page = 1 ∧
    termChangeDemo.inflight = [⟨"superman", 2⟩, ⟨"superman", 1⟩] ∧
    (termChangeDemo.inflight.head?.map Request.page) ≠ some 1 := by
  refine ⟨rfl, rfl, ?_⟩
  decide

/-- Claim C3: a successful response issued with page 1 replaces the results
list wholesale with the returned batch (a missing batch yields the empty
list); a response issued with page greater than 1 appends its batch in order;
a page-1 response followed by a page-2 response for the same term therefore
accumulates the two batches in order. -/
theorem claim_c3_replace_vs_append (s : HomeState) (r : Request)
    (batch : Option (List Movie)) (b : Bool) (t : String) (m1 m2 m3 m4 : Movie) :
    (r.page = 1 → (fetchSettled s r (.success batch) b).movies = batch.getD []) ∧
    (r.page = 1 → (fetchSettled s r (.success none) b).movies = []) ∧
    (r.page > 1 →
      (fetchSettled s r (.success batch) b).movies = s.movies ++ batch.getD []) ∧
    ((fetchSettled
        (fetchSettled s ⟨t, 1⟩ (.success (some [m1, m2])) false)
        ⟨t, 2⟩ (.success (some [m3, m4])) false).movies = [m1, m2, m3, m4]) := by
  refine ⟨?_, ?_, ?_, ?_⟩
  · intro h
    cases hb : s.loading && b <;> simp [fetchSettled, applyBatch, h, hb]
  · intro h
    cases hb : s.loading && b <;> simp [fetchSettled, applyBatch, h, hb]
  · intro h
    have h1 : r.page ≠ 1 := Nat.ne_of_gt h
    cases hb : s.loading && b <;> simp [fetchSettled, applyBatch, h1, hb]
  · simp [fetchSettled, applyBatch]

/-- Witness for claim C3 at a concrete state, request and batches. -/
theorem claim_c3_witness :
    (fetchSettled
      { debouncedSearch := "t", page := 2, loading := true,
        movies := [⟨1⟩], inflight := [⟨"t", 2⟩], errors := 0 }
      ⟨"t", 2⟩ (.success (some [⟨9⟩])) false).movies = [⟨1⟩] ++ [⟨9⟩] :=
  (claim_c3_replace_vs_append
    { debouncedSearch := "t", page := 2, loading := true,
      movies := [⟨1⟩], inflight := [⟨"t", 2⟩], errors := 0 }
    ⟨"t", 2⟩ (some [⟨9⟩]) false "t" ⟨1⟩ ⟨2⟩ ⟨3⟩ ⟨4⟩).2.2.1 (by decide)

/-- Claim C6: a proximity signal that fires while loading is true is a no-op —
nothing is queued, so any number of such signals leaves the state unchanged,
and once the outstanding fetch settles the page has advanced by at most one
(the single immediate re-check, never one advance per signal); a proximity
signal that fires while loading is false advances the page by exactly one. -/
theorem claim_c6_scroll_signal_guard (s : HomeState) (n : Nat) (r : Request)
    (out : FetchOutcome) (b : Bool) :
    (s.loading = true → scrollSignal s b = s) ∧
    (s.loading = true → scrollSignals s n = s) ∧
    (s.loading = true →
      (fetchSettled (scrollSignals s n) r out b).page ≤ s.page + 1) ∧
    (s.loading = false → (scrollSignal s true).page = s.page + 1) := by
  refine ⟨fun h => scrollSignal_noop s b h, fun h => scrollSignals_noop s h n,
    fun h => ?_, fun h => ?_⟩
  · rw [scrollSignals_noop s h n]
    cases hb : s.loading && b <;> simp [fetchSettled, hb, Nat.le_succ]
  · simp [scrollSignal, h]

/-- Witness for claim C6: three signals during a batman page-2 fetch change
nothing, the settle advances the page by at most one, and an idle signal
advances it by exactly one. -/
theorem claim_c6_witness :
    (scrollSignals
      { debouncedSearch := "batman", page := 2, loading := true,
        movies := [⟨3⟩, ⟨4⟩], inflight := [⟨"batman", 2⟩], errors := 0 } 3 =
      { debouncedSearch := "batman", page := 2, loading := true,
        movies := [⟨3⟩, ⟨4⟩], inflight := [⟨"batman", 2⟩], errors := 0 }) ∧
    (fetchSettled
      (scrollSignals
        { debouncedSearch := "batman", page := 2, loading := true,
          movies := [⟨3⟩, ⟨4⟩], inflight := [⟨"batman", 2⟩], errors := 0 } 3)
      ⟨"batman", 2⟩ (.success (some [⟨5⟩])) true).page ≤ 2 + 1 ∧
    (scrollSignal
      { debouncedSearch := "batman", page := 2, loading := false,
        movies := [⟨3⟩, ⟨4⟩], inflight := [], errors := 0 } true).page = 2 + 1 := by
  refine ⟨?_, ?_, ?_⟩
  · exact (claim_c6_scroll_signal_guard
      { debouncedSearch := "batman", page := 2, loading := true,
        movies := [⟨3⟩, ⟨4⟩], inflight := [⟨"batman", 2⟩], errors := 0 }
      3 ⟨"batman", 2⟩ (.success (some [⟨5⟩])) true).2.1 rfl
  · exact (claim_c6_scroll_signal_guard
      { debouncedSearch := "batman", page := 2, loading := true,
        movies := [⟨3⟩, ⟨4⟩], inflight := [⟨"batman", 2⟩], errors := 0 }
      3 ⟨"batman", 2⟩ (.success (some [⟨5⟩])) true).2.2.1 rfl
  · exact (claim_c6_scroll_signal_guard
      { debouncedSearch := "batman", page := 2, loading := false,
        movies := [⟨3⟩, ⟨4⟩], inflight := [], errors := 0 }
      3 ⟨"batman", 2⟩ (.success (some [⟨5⟩])) true).2.2.2 rfl

/-- Claim C7: a failed fetch leaves the results list exactly unchanged, is
reported (console.error, Home.jsx line 43) without crashing the state machine
(the settle is a total transition), does not dispatch any retry, and clears
loading; a successful fetch also clears loading. The loading and no-retry
conclusions are stated for a settle at which the proximity condition does not
hold, since proximity at settle time triggers the separate page-advance
dispatch of the scroll effect (see claim C10), which is not a retry. -/
theorem claim_c7_failure_handling (s : HomeState) (r : Request) (b : Bool)
    (batch : Option (List Movie)) :
    ((fetchSettled s r .failure b).movies = s.movies) ∧
    ((fetchSettled s r .failure b).errors = s.errors + 1) ∧
    (b = false → (fetchSettled s r .failure b).loading = false ∧
      (fetchSettled s r .failure b).inflight = s.inflight.erase r) ∧
    (b = false → (fetchSettled s r (.success batch) b).loading = false) := by
  refine ⟨?_, ?_, fun hb => ?_, fun hb => ?_⟩
  · cases hc : s.loading && b <;> simp [fetchSettled, hc]
  · cases hc : s.loading && b <;> simp [fetchSettled, hc]
  · subst hb
    constructor <;> simp [fetchSettled]
  · subst hb
    simp [fetchSettled]

/-- Witness for claim C7 at a concrete failing fetch. -/
theorem claim_c7_witness :
    ((fetchSettled
      { debouncedSearch := "t", page := 2, loading := true,
        movies := [⟨1⟩], inflight := [⟨"t", 2⟩], errors := 0 }
      ⟨"t", 2⟩ .failure false).movies = [⟨1⟩]) ∧
    ((fetchSettled
      { debouncedSearch := "t", page := 2, loading := true,
        movies := [⟨1⟩], inflight := [⟨"t", 2⟩], errors := 0 }
      ⟨"t", 2⟩ .failure false).loading = false ∧
     (fetchSettled
      { debouncedSearch := "t", page := 2, loading := true,
        movies := [⟨1⟩], inflight := [⟨"t", 2⟩], errors := 0 }
      ⟨"t", 2⟩ .failure false).inflight = [⟨"t", 2⟩].erase ⟨"t", 2⟩) := by
  refine ⟨?_, ?_⟩
  · exact (claim_c7_failure_handling
      { debouncedSearch := "t", page := 2, loading := true,
        movies := [⟨1⟩], inflight := [⟨"t", 2⟩], errors := 0 }
      ⟨"t", 2⟩ false (some [])).1
  · exact (claim_c7_failure_handling
      { debouncedSearch := "t", page := 2, loading := true,
        movies := [⟨1⟩], inflight := [⟨"t", 2⟩], errors := 0 }
      ⟨"t", 2⟩ false (some [])).2.2.1 rfl

/-- Claim C10: when loading transitions from true to false at a settle, the
scroll-listener effect re-runs and invokes the proximity check once
immediately; if the viewport is still within the threshold, the page advances
by exactly one and the next-page request is dispatched without any new scroll
event; if not, the page stays put. -/
theorem claim_c10_auto_advance_on_settle (s : HomeState) (r : Request)
    (out : FetchOutcome) (h : s.loading = true) :
    (fetchSettled s r out true).page = s.page + 1 ∧
    (fetchSettled s r out true).inflight =
      s.inflight.erase r ++ [⟨s.debouncedSearch, s.page + 1⟩] ∧
    (fetchSettled s r out true).loading = true ∧
    (fetchSettled s r out false).page = s.page := by
  refine ⟨?_, ?_, ?_, ?_⟩ <;> simp [fetchSettled, h]

/-- Witness for claim C10: a settle with the viewport still near the bottom
chains the next page automatically. -/
theorem claim_c10_witness :
    (fetchSettled
      { debouncedSearch := "", page := 1, loading := true,
        movies := [], inflight := [⟨"", 1⟩], errors := 0 }
      ⟨"", 1⟩ (.success (some [⟨1⟩])) true).page = 1 + 1 ∧
    (fetchSettled
      { debouncedSearch := "", page := 1, loading := true,
        movies := [], inflight := [⟨"", 1⟩], errors := 0 }
      ⟨"", 1⟩ (.success (some [⟨1⟩])) true).inflight =
      [⟨"", 1⟩].erase ⟨"", 1⟩ ++ [⟨"", 1 + 1⟩] := by
  refine ⟨?_, ?_⟩
  · exact (claim_c10_auto_advance_on_settle
      { debouncedSearch := "", page := 1, loading := true,
        movies := [], inflight := [⟨"", 1⟩], errors := 0 }
      ⟨"", 1⟩ (.success (some [⟨1⟩])) rfl).1
  · exact (claim_c10_auto_advance_on_settle
      { debouncedSearch := "", page := 1, loading := true,
        movies := [], inflight := [⟨"", 1⟩], errors := 0 }
      ⟨"", 1⟩ (.success (some [⟨1⟩])) rfl).2.1

/-- Claim C4, counterexample: the claim defines emptiness as length zero after
trimming and asserts the search endpoint is never called with a query that is
empty after trimming. The code routes on JS string truthiness with no trim
(Home.jsx lines 33-35): a single-space debounced term is truthy, so the search
endpoint is called with the query consisting of one space, whose trim is
empty. -/
theorem claim_c4_trim_routing_counterexample :
    homeFetchCall " " 1 = ApiCall.search " " 1 ∧ specEmptyTerm " " = true := by
  constructor
  · decide
  · decide

/-- Claim C4 as amended: the fetch dispatch routes on the raw string being
empty, with no trimming — the empty-string term calls the trending endpoint,
and every non-empty term (including whitespace-only terms whose trim is empty)
calls the search endpoint with that exact term and the current page. -/
theorem claim_c4_amended_routing (term : String) (page : Nat) :
    (term = "" → homeFetchCall term page = ApiCall.trending page) ∧
    (term ≠ "" → homeFetchCall term page = ApiCall.search term page) := by
  constructor
  · intro h
    simp [homeFetchCall, h]
  · intro h
    simp [homeFetchCall, h]

/-- Witness for the amended claim C4 on both branches. -/
theorem claim_c4_amended_witness :
    homeFetchCall "" 7 = ApiCall.trending 7 ∧
    homeFetchCall "batman" 7 = ApiCall.search "batman" 7 :=
  ⟨(claim_c4_amended_routing "" 7).1 rfl,
   (claim_c4_amended_routing "batman" 7).2 (by decide)⟩

/-- Helper for claim C5: with no teardown and every consecutive gap strictly
below the delay, only the last input's timer survives. -/
theorem emissions_all_cancelled (d : Nat) :
    ∀ inputs : List (Nat × String), gapsLt d inputs = true →
      emissions d none inputs =
        (inputs.getLast?.map (fun p => (p.1 + d, p.2))).toList := by
  intro inputs
  induction inputs with
  | nil => intro _; rfl
  | cons a rest ih =>
    intro hg
    match a, rest with
    | (t, v), [] => rfl
    | (t, v), (t2, v2) :: rest' =>
      have hsplit :
          (t < t2 ∧ t2 < t + d) ∧ gapsLt d ((t2, v2) :: rest') = true := by
        simpa only [gapsLt, Bool.and_eq_true, decide_eq_true_eq] using hg
      have hg' : gapsLt d ((t2, v2) :: rest') = true := hsplit.2
      have hlt : t2 < t + d := hsplit.1.2
      have hcancel : emissions d none ((t, v) :: (t2, v2) :: rest') =
          emissions d none ((t2, v2) :: rest') := by
        simp [emissions, cancelTime, hlt]
      rw [hcancel, ih hg', List.getLast?_cons_cons]

/-- Helper for claim C5: with teardown at time tt no later than which every
input has arrived, every emission fires no later than tt (a timer that would
fire after teardown is cleared by the unmount cleanup). -/
theorem emissions_before_teardown (d tt : Nat) :
    ∀ inputs : List (Nat × String), (∀ p ∈ inputs, p.1 ≤ tt) →
      ∀ e ∈ emissions d (some tt) inputs, e.1 ≤ tt := by
  intro inputs
  induction inputs with
  | nil => intro _ e he; simp [emissions] at he
  | cons a rest ih =>
    intro hall e he
    have hrest : ∀ p ∈ rest, p.1 ≤ tt := fun p hp => hall p (List.mem_cons_of_mem _ hp)
    match a, he with
    | (t, v), he =>
      simp only [emissions] at he
      rcases List.mem_append.1 he with hl | hr
      · by_cases hc : (match cancelTime (some tt) rest with
          | some c => decide (c < t + d)
          | none => false) = true
        · rw [if_pos hc] at hl
          simp at hl
        · rw [if_neg hc] at hl
          have he' : e = (t + d, v) := by simpa using hl
          subst he'
          cases hrest' : rest with
          | nil =>
            have : ¬ tt < t + d := by
              subst hrest'
              simpa [cancelTime] using hc
            exact Nat.le_of_not_lt this
          | cons b rest'' =>
            have hble : b.1 ≤ tt := hrest b (by rw [hrest']; exact List.mem_cons_self _ _)
            have : ¬ b.1 < t + d := by
              subst hrest'
              simpa [cancelTime] using hc
            exact Nat.le_trans (Nat.le_of_not_lt this) hble
      · exact ih hrest e hr

/-- Claim C5: for a finite input sequence whose consecutive inputs arrive
strictly less than the delay apart, exactly one settled value is emitted —
the last input, at its time plus the delay (the timer of every earlier input
is cleared by the effect run of the input that supersedes it); and with the
debouncer torn down at a time tt no earlier than the inputs, no emission
occurs after tt. -/
theorem claim_c5_debounce_settling (d tt : Nat) (inputs : List (Nat × String))
    (hgaps : gapsLt d inputs = true) (htear : ∀ p ∈ inputs, p.1 ≤ tt) :
    emissions d none inputs =
      (inputs.getLast?.map (fun p => (p.1 + d, p.2))).toList ∧
    (∀ e ∈ emissions d (some tt) inputs, e.1 ≤ tt) :=
  ⟨emissions_all_cancelled d inputs hgaps,
   emissions_before_teardown d tt inputs htear⟩

/-- Witness for claim C5: the spec's example — inputs a, av, ave at times 0,
100, 200 with delay 500 produce the single emission ave at time 700; and with
teardown at 10000 every emission is at or before 10000. -/
theorem claim_c5_witness :
    emissions 500 none [(0, "a"), (100, "av"), (200, "ave")] = [(700, "ave")] ∧
    (∀ e ∈ emissions 500 (some 10000) [(0, "a"), (100, "av"), (200, "ave")],
      e.1 ≤ 10000) := by
  have h := claim_c5_debounce_settling 500 10000
    [(0, "a"), (100, "av"), (200, "ave")] (by decide) (by decide)
  exact ⟨h.1.trans (by decide), h.2⟩

/-- Helper for claim C8: removing the leading w of a well-formed token yields
exactly its digit part. -/
theorem jsReplaceW_w_append (s : String) : jsReplaceW ("w" ++ s) = s := by
  show String.mk (removeFirstChar 'w' ('w' :: s.data)) = s
  simp [removeFirstChar]

/-- Helper for claim C8: on a token that is the letter w followed by the
canonical decimal digits of its parsed width, the code's srcSet entry is the
spec candidate rendered with its numeric width. -/
theorem srcSetEntry_spec (base path tok : String)
    (h : tok = "w" ++ Nat.repr (tokenWidth tok)) :
    srcSetEntry base tok path =
      (base ++ tok ++ path) ++ " " ++ Nat.repr (tokenWidth tok) ++ "w" := by
  have hw : jsReplaceW tok = Nat.repr (tokenWidth tok) := by
    conv_lhs => rw [h]
    exact jsReplaceW_w_append (Nat.repr (tokenWidth tok))
  show base ++ tok ++ path ++ " " ++ jsReplaceW tok ++ "w" = _
  rw [hw]

/-- Helper for claim C8: the entry map agrees with the rendered spec
candidates over any size list of well-formed tokens. -/
theorem srcSet_entries_eq (base path : String) :
    ∀ l : List String,
      (∀ tok ∈ l, tok = "original" ∨ tok = "w" ++ Nat.repr (tokenWidth tok)) →
      (l.filter (fun s => s != "original")).map
          (fun tok => srcSetEntry base tok path) =
        (l.filter (fun s => s != "original")).map
          (fun tok => (base ++ tok ++ path) ++ " " ++ Nat.repr (tokenWidth tok) ++ "w") := by
  intro l
  induction l with
  | nil => intro _; rfl
  | cons tok rest ih =>
    intro h
    have hrest := ih (fun x hx => h x (List.mem_cons_of_mem _ hx))
    rcases h tok (List.mem_cons_self _ _) with ho | hw
    · simp [List.filter_cons, ho, hrest]
    · by_cases ho : tok = "original"
      · simp [List.filter_cons, ho, hrest]
      · have hb : (tok != "original") = true := by
          simpa using ho
        simp only [List.filter_cons, hb, if_true, List.map_cons, hrest,
          srcSetEntry_spec base path tok hw]

/-- Claim C8: with the configuration resolved and a non-empty path, the
component renders; the default URL is baseUrl + w342 + path for posters and
baseUrl + w780 + path for backdrops; the srcSet the code builds is exactly the
spec's responsive candidate set — every size token of the kind's list except
the original sentinel, in list order, paired with baseUrl + token + path and
the numeric width parsed from the token — rendered and comma-joined; and with
an empty size list the candidate set is empty while the default URL is still
constructed from the default token without consulting the list. Tokens are
assumed well-formed: the letter w followed by the canonical decimal digits of
their width (or the original sentinel). -/
theorem claim_c8_image_url_derivation (cfg : ImagesConfig) (ty path : String)
    (htok : ∀ tok ∈ sizesFor cfg ty,
      tok = "original" ∨ tok = "w" ++ Nat.repr (tokenWidth tok)) :
    (path ≠ "" → tmdbImage (some cfg) path ty =
      some (tmdbSrc cfg ty path, tmdbSrcSet cfg ty path)) ∧
    tmdbSrc cfg "poster" path = cfg.secure_base_url ++ "w342" ++ path ∧
    tmdbSrc cfg "backdrop" path = cfg.secure_base_url ++ "w780" ++ path ∧
    tmdbSrcSet cfg ty path =
      String.intercalate ", "
        ((specImageCandidates cfg ty path).map
          (fun p => p.1 ++ " " ++ Nat.repr p.2 ++ "w")) ∧
    (sizesFor cfg ty = [] →
      specImageCandidates cfg ty path = [] ∧ tmdbSrcSet cfg ty path = "" ∧
      tmdbSrc cfg ty path = cfg.secure_base_url ++ defaultSize ty ++ path) := by
    refine ⟨fun hp => ?_, ?_, ?_, ?_, fun hempty => ?_⟩
    · simp [tmdbImage, hp]
    · rfl
    · rfl
    · show String.intercalate ", " _ = String.intercalate ", " _
      rw [specImageCandidates, List.map_map]
      exact congrArg (String.intercalate ", ")
        (srcSet_entries_eq cfg.secure_base_url path (sizesFor cfg ty) htok)
    · refine ⟨?_, ?_, rfl⟩
      · simp [specImageCandidates, hempty]
      · rw [tmdbSrcSet, hempty]
        rfl

/-- Witness for claim C8 at the spec's example configuration: base URL, poster
sizes w92, w342 and the original sentinel, path /x.jpg. -/
theorem claim_c8_witness :
    (tmdbImage
      (some ⟨"https://img/t/p/", ["w92", "w342", "original"], ["w780", "original"]⟩)
      "/x.jpg" "poster" =
      some (tmdbSrc ⟨"https://img/t/p/", ["w92", "w342", "original"], ["w780", "original"]⟩
              "poster" "/x.jpg",
            tmdbSrcSet ⟨"https://img/t/p/", ["w92", "w342", "original"], ["w780", "original"]⟩
              "poster" "/x.jpg")) ∧
    tmdbSrc ⟨"https://img/t/p/", ["w92", "w342", "original"], ["w780", "original"]⟩
      "poster" "/x.jpg" = "https://img/t/p/" ++ "w342" ++ "/x.jpg" ∧
    tmdbSrcSet ⟨"https://img/t/p/", ["w92", "w342", "original"], ["w780", "original"]⟩
      "poster" "/x.jpg" =
      String.intercalate ", "
        ((specImageCandidates
            ⟨"https://img/t/p/", ["w92", "w342", "original"], ["w780", "original"]⟩
            "poster" "/x.jpg").map
          (fun p => p.1 ++ " " ++ Nat.repr p.2 ++ "w")) := by
  have h := claim_c8_image_url_derivation
    ⟨"https://img/t/p/", ["w92", "w342", "original"], ["w780", "original"]⟩
    "poster" "/x.jpg" (by decide)
  exact ⟨h.1 (by decide), h.2.1, h.2.2.2.1⟩

/-- Claim C9: every call through the API layer fails locally, before the URL
is constructed or a request issued, when the key credential is missing
(undefined or the empty string, both falsy in the api.js guard); with a
non-empty key present, the issued request carries the api_key pair among its
query parameters; and the trending and search endpoints both route through
this helper. -/
theorem claim_c9_api_key_guard (key : Option String) (endpoint : String)
    (params : List (String × String)) (q : String) (page : Nat) :
    ((key = none ∨ key = some "") →
      fetchFromTMDB key endpoint params = Except.error "key is missing") ∧
    (∀ k, key = some k → k ≠ "" →
      ∃ req, fetchFromTMDB key endpoint params = Except.ok req ∧
        ("api_key", k) ∈ req.params ∧ req.url = BASE_URL ++ endpoint) ∧
    getTrendingMovies key page =
      fetchFromTMDB key "/trending/movie/week" [("page", Nat.repr page)] ∧
    searchMovies key q page =
      fetchFromTMDB key "/search/movie" [("query", q), ("page", Nat.repr page)] := by
  refine ⟨fun h => ?_, fun k hk hne => ?_, rfl, rfl⟩
  · rcases h with h | h <;> subst h <;> simp [fetchFromTMDB]
  · subst hk
    refine ⟨⟨BASE_URL ++ endpoint, ("api_key", k) :: params⟩, ?_, ?_, rfl⟩
    · simp [fetchFromTMDB, hne]
    · exact List.mem_cons_self _ _

/-- Witness for claim C9: a missing key fails locally and a present key is
carried as a query parameter of the issued search request. -/
theorem claim_c9_witness :
    fetchFromTMDB none "/search/movie" [("query", "batman"), ("page", "1")] =
      Except.error "key is missing" ∧
    (∃ req, fetchFromTMDB (some "KEY") "/search/movie"
        [("query", "batman"), ("page", "1")] = Except.ok req ∧
      ("api_key", "KEY") ∈ req.params ∧ req.url = BASE_URL ++ "/search/movie") := by
  refine ⟨?_, ?_⟩
  · exact (claim_c9_api_key_guard none "/search/movie"
      [("query", "batman"), ("page", "1")] "batman" 1).1 (Or.inl rfl)
  · exact (claim_c9_api_key_guard (some "KEY") "/search/movie"
      [("query", "batman"), ("page", "1")] "batman" 1).2.1 "KEY" rfl (by decide)

end CineStream
